import Mathlib

/-!
# Verification of the claude-bot conversation-turn orchestrator

A shallow embedding, in Lean 4, of the core orchestration logic of the
multi-personality Telegram chat-bot platform:

* `BotManager.handleMessage` / `BotManager.handleCommand` (lib/bot-manager.js),
* `NudgeManager.getNextNudgeTrigger` (lib/nudge-manager.js),
* `BotManager.performHealthChecks` / `BotManager.recoverBot` (lib/bot-manager.js).

External collaborators (the Telegram channel, the Claude agent client, the
session store and the rate limiter) are modelled as explicit oracles / state
records: their return values are inputs of the embedded functions and the
channel operations they trigger are recorded in an event trace.

JavaScript numbers standing for fractional hour counts are modelled as `ℚ`;
timestamps and counters as `ℕ`.  JavaScript string truthiness (`''` is falsy)
is modelled explicitly where the source relies on it.
-/

namespace ClaudeBot

/-! ## JavaScript string primitives used by the source -/

/-- JS `a || b` on strings: the empty string is falsy. -/
def jsOr (a b : String) : String := if a = "" then b else a

/-- JS string truthiness for an optional string field
(`undefined`, `null` and `''` are falsy). -/
def jsTruthy (o : Option String) : Bool :=
  match o with
  | some s => s ≠ ""
  | none => false

/-- Substring containment on character lists (JS `String.prototype.includes`). -/
def containsSub (s pat : List Char) : Bool :=
  if pat.isPrefixOf s then true
  else
    match s with
    | [] => false
    | _ :: t => containsSub t pat

/-- JS `s.includes(pat)`. -/
def jsIncludes (s pat : String) : Bool := containsSub s.toList pat.toList

/-- JS `s.lastIndexOf(pat)`: the greatest index at which `pat` occurs, `-1` if none. -/
def jsLastIndexOf (s pat : String) : Int :=
  match (((List.range (s.toList.length + 1)).filter
      (fun i => pat.toList.isPrefixOf (s.toList.drop i))).getLast?) with
  | some i => (i : Int)
  | none => -1

/-- JS `s.substring(i)` (drop the first `i` characters). -/
def jsSubstringFrom (s : String) (i : Nat) : String := String.mk (s.toList.drop i)

/-- JS `s.trim()` (whitespace stripped from both ends), computed structurally
on the character list. -/
def jsTrim (s : String) : String :=
  String.mk (((s.toList.dropWhile Char.isWhitespace).reverse.dropWhile
    Char.isWhitespace).reverse)

/-- JS `s.toLowerCase()` (ASCII case folding), computed structurally. -/
def jsToLower (s : String) : String := String.mk (s.toList.map Char.toLower)

/-- JS `s.split(' ')[0]`: the prefix of `s` before the first space. -/
def jsSplitFirst (s : String) : String :=
  String.mk (s.toList.takeWhile (fun c => c ≠ ' '))

/-- JS `s.startsWith(pat)`. -/
def jsStartsWith (s pat : String) : Bool := pat.toList.isPrefixOf s.toList

/-! ## NudgeManager.getNextNudgeTrigger (lib/nudge-manager.js) -/

/-- A nudge trigger rule from brain configuration (`brain.nudges.triggers[i]`).
`condition` is an optional string field; the source compares it against the
literal `'no_user_message'`. -/
structure NudgeTrigger where
  delayHours : ℚ
  condition : Option String := none
  promptTemplate : String := ""
  stopSequence : Bool := false
  deriving Repr, DecidableEq

/-- The body of the `triggers.filter(...)` predicate in
`NudgeManager.getNextNudgeTrigger`. -/
def nudgeTriggerFires (hoursSinceLastMessage lastNudgeSent : ℚ)
    (trigger : NudgeTrigger) : Bool :=
  -- Must have passed the delay time
  if hoursSinceLastMessage < trigger.delayHours then false
  -- Must not have already sent this trigger
  else if trigger.delayHours ≤ lastNudgeSent then false
  -- Check condition (currently only 'no_user_message' supported)
  else if trigger.condition = some "no_user_message" then true
  else false

/-- `NudgeManager.getNextNudgeTrigger(triggers, hoursSinceLastMessage,
lastNudgeSent)`: filter the eligible triggers, sort ascending by `delayHours`,
return the first (or `null`). -/
def getNextNudgeTrigger (triggers : List NudgeTrigger)
    (hoursSinceLastMessage lastNudgeSent : ℚ) : Option NudgeTrigger :=
  let eligibleTriggers :=
    triggers.filter (nudgeTriggerFires hoursSinceLastMessage lastNudgeSent)
  (eligibleTriggers.mergeSort (fun a b => a.delayHours ≤ b.delayHours)).head?

/-! ## Brain configuration (feature flags consumed by bot-manager.js) -/

/-- `brain.imageGen` configuration block. -/
structure ImageGenConfig where
  enabled : Bool := false
  profile : Option String := none
  sendTextToo : Option Bool := none
  deriving Repr, DecidableEq

/-- `brain.tts` configuration block. -/
structure TtsConfig where
  enabled : Bool := false
  voice : Option String := none
  provider : Option String := none
  sendTextToo : Option Bool := none
  deriving Repr, DecidableEq

/-- `brain.callToAction` configuration block. -/
structure CtaConfig where
  enabled : Bool := false
  triggerEvery : Option Nat := none
  sendOnFirstMessage : Option Bool := none
  delaySeconds : Option Nat := none
  message : String := ""
  image : Option String := none
  deriving Repr, DecidableEq

/-- The brain fields consumed by `BotManager.handleMessage` /
`BotManager.handleCommand`.  Optional blocks model the JS `brain.x?.y`
accesses. -/
structure Brain where
  name : Option String := none
  description : Option String := none
  imageGen : Option ImageGenConfig := none
  tts : Option TtsConfig := none
  callToAction : Option CtaConfig := none
  deriving Repr, DecidableEq

/-- JS `brain.imageGen?.enabled === true`. -/
def imageGenEnabled (brain : Brain) : Bool :=
  match brain.imageGen with
  | some c => c.enabled
  | none => false

/-- JS `brain.tts?.enabled === true`. -/
def brainTtsEnabled (brain : Brain) : Bool :=
  match brain.tts with
  | some c => c.enabled
  | none => false

/-- JS `brain.tts?.sendTextToo === true`. -/
def ttsSendTextToo (brain : Brain) : Bool :=
  match brain.tts with
  | some c => c.sendTextToo = some true
  | none => false

/-- JS `brain.imageGen?.sendTextToo === true`. -/
def imageSendTextToo (brain : Brain) : Bool :=
  match brain.imageGen with
  | some c => c.sendTextToo = some true
  | none => false

/-! ## Session store and rate limiter state

`session-manager.js` and `rate-limiter.js` are external collaborators of the
orchestrator (spec §6) whose sources are not part of the analyzed tree; their
per-(bot,user) state and operations are modelled from the spec contracts. -/

/-- One recorded nudge in the session's nudge history (the `nudgeData` shape
recorded by `NudgeManager.sendNudge`). -/
structure NudgeRecord where
  timestamp : Nat
  delayHours : ℚ := 0
  message : String := ""
  userResponded : Bool := false
  stopSequence : Bool := false
  deriving Repr, DecidableEq

/-- Modelled from the spec: the session store's per-(bot,user) record —
current agent session identifier (nullable), message count, last-message
timestamp, per-user TTS preference (nullable = use brain default), ordered
nudge history — plus the rate limiter's per-(bot,user) daily counter.
`metadataExists` models whether `loadSessionMetadata` finds a record at all
(it may return `null` for a user with no history yet). -/
structure SessionState where
  metadataExists : Bool := true
  currentUuid : Option String := none
  messageCount : Nat := 0
  lastMessageTime : Nat := 0
  ttsPreference : Option Bool := none
  nudgeHistory : List NudgeRecord := []
  rateCount : Nat := 0
  deriving Repr, DecidableEq

/-- Modelled from the spec: `sessionManager.getCurrentUuid`. -/
def getCurrentUuid (st : SessionState) : Option String := st.currentUuid

/-- Modelled from the spec: `sessionManager.setCurrentUuid`. -/
def setCurrentUuid (st : SessionState) (uuid : String) : SessionState :=
  { st with currentUuid := some uuid }

/-- Modelled from the spec: `sessionManager.incrementMessageCount`. -/
def incrementMessageCount (st : SessionState) : SessionState :=
  { st with messageCount := st.messageCount + 1 }

/-- Modelled from the spec: `sessionManager.updateLastMessageTime`. -/
def updateLastMessageTime (st : SessionState) (now : Nat) : SessionState :=
  { st with lastMessageTime := now }

/-- Modelled from the spec: `sessionManager.getTtsPreference` (tri-state,
`none` = unset). -/
def getTtsPreference (st : SessionState) : Option Bool := st.ttsPreference

/-- Modelled from the spec: `sessionManager.setTtsPreference`. -/
def setTtsPreference (st : SessionState) (value : Bool) : SessionState :=
  { st with ttsPreference := some value }

/-- Modelled from the spec: `sessionManager.markNudgeResponded` — mark the
nudge with the given timestamp as answered. -/
def markNudgeResponded (st : SessionState) (timestamp : Nat) : SessionState :=
  { st with nudgeHistory :=
      st.nudgeHistory.map (fun n =>
        if n.timestamp = timestamp then { n with userResponded := true } else n) }

/-- Modelled from the spec: `sessionManager.resetConversation` — rotate the
current agent session identifier out (next message starts fresh). -/
def resetConversation (st : SessionState) : SessionState :=
  { st with currentUuid := none }

/-- Modelled from the spec: `sessionManager.loadSessionMetadata` — `null`
when the user has no session record yet. -/
def loadSessionMetadata (st : SessionState) : Option SessionState :=
  if st.metadataExists then some st else none

/-- Modelled from the spec: `rateLimiter.increment`. -/
def rateIncrement (st : SessionState) : SessionState :=
  { st with rateCount := st.rateCount + 1 }

/-- Result shape of `rateLimiter.checkLimit(botId, userId, brain)`. -/
structure RateLimitResult where
  allowed : Bool
  limit : Nat := 0
  current : Nat := 0
  deriving Repr, DecidableEq

/-! ## Inbound messages, agent oracle and turn output -/

/-- The fields of a Telegram message consumed by `handleMessage`. -/
structure InboundMessage where
  chatId : Int
  fromId : Nat := 0
  text : Option String := none
  caption : Option String := none
  photo : List String := []
  deriving Repr, DecidableEq

/-- `const text = msg.text?.trim() || msg.caption?.trim() || '';` -/
def msgEffectiveText (m : InboundMessage) : String :=
  jsOr ((m.text.map jsTrim).getD "")
    (jsOr ((m.caption.map jsTrim).getD "") "")

/-- Channel operations performed by one turn, in order.  Streaming edits of
the status message and the turn-2 status edits are driven from inside the
agent call and are abstracted into the agent oracle; channel sends are
assumed to be delivered (the audio-send fallback of lines 493–497 never
triggers under this assumption). -/
inductive Event where
  | sentMessage (chatId : Int) (text : String)
  | sentVoice (chatId : Int) (path : String)
  | sentPhoto (chatId : Int) (path : String)
  | statusSent (chatId : Int) (text : String)
  | statusDeleted (chatId : Int)
  | ctaScheduled (chatId : Int) (delaySeconds : Nat) (message : String) (withImage : Bool)
  deriving Repr, DecidableEq

/-- Which of the three agent client entry points the turn used. -/
inductive AgentCallKind where
  | image
  | tts
  | textStream
  deriving Repr, DecidableEq

/-- What the orchestrator handed to the agent client. -/
structure AgentCallSpec where
  kind : AgentCallKind
  message : String
  /-- text part of the structured (image) content, when a photo was attached -/
  contentText : Option String := none
  sessionId : Option String := none
  deriving Repr, DecidableEq

/-- The `TurnResult` fields consumed by the orchestrator
(`result.metadata?.sessionInfo?.sessionId` is flattened to `sessionId`). -/
structure TurnResult where
  success : Bool := false
  text : Option String := none
  error : Option String := none
  imagePath : Option String := none
  audioPath : Option String := none
  sessionId : Option String := none
  deriving Repr, DecidableEq

/-- Agent oracle: either a returned `TurnResult` (with the image paths the
streaming tool-result callback collected, used in text mode only) or an
exception raised by the agent call. -/
inductive AgentOutcome where
  | ok (result : TurnResult) (genImages : List String)
  | thrown (message : String)
  deriving Repr, DecidableEq

/-- Observable outcome of one `handleMessage` run. -/
structure TurnOutput where
  events : List Event := []
  agentCall : Option AgentCallSpec := none
  /-- whether `rateLimiter.checkLimit` was consulted -/
  rateChecked : Bool := false
  finalState : SessionState
  deriving Repr, DecidableEq

/-! ## Prompt construction and turn classification (bot-manager.js 210–287) -/

/-- Photo-mode `prefixText` (lines 223–234).  The JS ternary
`securityReminder ? ... : ...` treats `null` and `''` as falsy. -/
def mkPrefixText (isNewSession : Bool) (systemPrompt : String)
    (securityReminder : Option String) : String :=
  if isNewSession then
    -- New session: system prompt + security reminder (if enabled)
    if jsTruthy securityReminder then
      systemPrompt ++ "\n\n---\n\n" ++ securityReminder.getD "" ++ "\n\nUser says:"
    else
      systemPrompt ++ "\n\nUser says:"
  else
    -- Resumed session: just security reminder (if enabled)
    if jsTruthy securityReminder then
      securityReminder.getD "" ++ "\n\nUser says:"
    else
      "User says:"

/-- Text-only `fullMessage` (lines 255–267). -/
def mkFullMessageText (isNewSession : Bool) (systemPrompt : String)
    (securityReminder : Option String) (text : String) : String :=
  if isNewSession then
    -- New session: system prompt + security reminder (if enabled)
    if jsTruthy securityReminder then
      systemPrompt ++ "\n\n---\n\n" ++ securityReminder.getD "" ++ "\n\nUser: " ++ text
    else
      systemPrompt ++ "\n\nUser: " ++ text
  else
    -- Resumed session: just security reminder (if enabled)
    if jsTruthy securityReminder then
      securityReminder.getD "" ++ "\n\nUser: " ++ text
    else
      "User: " ++ text

/-- `isImageRequest` (lines 272–280): image generation enabled for the brain
AND the lowercased text contains one of six fixed keywords. -/
def isImageRequest (brain : Brain) (text : String) : Bool :=
  imageGenEnabled brain &&
    (jsIncludes (jsToLower text) "image" ||
     jsIncludes (jsToLower text) "picture" ||
     jsIncludes (jsToLower text) "photo" ||
     jsIncludes (jsToLower text) "draw" ||
     jsIncludes (jsToLower text) "generate" ||
     jsIncludes (jsToLower text) "create a")

/-- `ttsEnabled` (lines 284–287): user preference if set, otherwise the brain
default. -/
def effectiveTts (userTtsPreference : Option Bool) (brain : Brain) : Bool :=
  match userTtsPreference with
  | some p => p
  | none => brainTtsEnabled brain

/-! ## Response dispatch (bot-manager.js 462–614) -/

/-- Lines 467–474: strip a possible prompt echo — when the response contains
`User:` at a positive last index, keep only what follows it, trimmed. -/
def stripPromptEcho (respText : String) : String :=
  if respText ≠ "" && jsIncludes respText "User:" then
    let userIndex := jsLastIndexOf respText "User:"
    if userIndex > 0 then jsTrim (jsSubstringFrom respText (userIndex.toNat + 5))
    else respText
  else respText

/-- The chunking loop of lines 540–543: successive 4000-character slices. -/
def chunkLoop (s : List Char) : List String :=
  match s with
  | [] => []
  | c :: rest => String.mk ((c :: rest).take 4000) :: chunkLoop ((c :: rest).drop 4000)
termination_by s.length
decreasing_by
  simp only [List.length_drop, List.length_cons]
  omega

/-- Lines 534–544: a single send if within the 4000-character limit, else
sequential chunks. -/
def sendTextEvents (chatId : Int) (cleanResponse : String) : List Event :=
  if cleanResponse.length ≤ 4000 then [.sentMessage chatId cleanResponse]
  else (chunkLoop cleanResponse.toList).map (.sentMessage chatId)

/-- Call-to-action policy (lines 565–609): evaluated after a successful reply
against the freshly loaded session metadata; a qualifying reply schedules one
delayed CTA send. -/
def ctaEvents (brain : Brain) (chatId : Int) (st : SessionState) : List Event :=
  match brain.callToAction with
  | some cta =>
    if cta.enabled then
      let triggerEvery := match cta.triggerEvery with
        | some n => if n = 0 then 5 else n   -- JS `cta.triggerEvery || 5`
        | none => 5
      let sendOnFirst := cta.sendOnFirstMessage = some true
      match loadSessionMetadata st with
      | some metadata =>
        if (sendOnFirst && metadata.messageCount = 1) ||
            (metadata.messageCount % triggerEvery = 0) then
          let delaySeconds := (cta.delaySeconds).getD 0
          [.ctaScheduled chatId delaySeconds cta.message cta.image.isSome]
        else []
      | none => []
    else []
  | none => []

/-- The accepted-result branch (lines 464–609): audio, then images, then the
text version under the `sendTextToo` policy, then the CTA evaluation. -/
def dispatchSuccess (brain : Brain) (chatId : Int) (result : TurnResult)
    (generatedImages : List String) (st4 : SessionState) : List Event :=
  let cleanResponse := stripPromptEcho (result.text.getD "")
  let hasAudio := jsTruthy result.audioPath
  let sendTextTooAudio := ttsSendTextToo brain
  let hasImageFrom2Turn := jsTruthy result.imagePath
  let hasImagesFrom1Turn := !generatedImages.isEmpty
  let hasImages := hasImageFrom2Turn || hasImagesFrom1Turn
  let sendTextTooImage := imageSendTextToo brain
  let audioEvents := if hasAudio then [Event.sentVoice chatId (result.audioPath.getD "")] else []
  let imageEvents :=
    (if hasImageFrom2Turn then [Event.sentPhoto chatId (result.imagePath.getD "")] else []) ++
    (if hasImagesFrom1Turn then generatedImages.map (Event.sentPhoto chatId) else [])
  let shouldSendText := (!hasAudio && !hasImages) ||
                        (hasAudio && sendTextTooAudio) ||
                        (hasImages && sendTextTooImage)
  let textEvents := if shouldSendText then sendTextEvents chatId cleanResponse else []
  audioEvents ++ imageEvents ++ textEvents ++ ctaEvents brain chatId st4

/-- Line 612: the message sent when the agent result is not accepted. -/
def agentErrorMessage (result : TurnResult) : String :=
  "❌ Sorry, I encountered an error: " ++ jsOr (result.error.getD "") "Unknown error"

/-- Line 618: the message sent from the top-level catch. -/
def exceptionApology (errMsg : String) : String :=
  "❌ Sorry, something went wrong: " ++ errMsg

/-- Lines 124–127: the daily-limit notice. -/
def limitNotice (limit current : Nat) : String :=
  "⏸️ You\x27ve reached your daily limit of " ++ toString limit ++ " messages.\n\n" ++
  "Resets at midnight. Current: " ++ toString current ++ "/" ++ toString limit

/-! ## Post-turn bookkeeping (bot-manager.js 429–452) -/

/-- Runs after every agent exchange that returned (did not raise): persist the
surfaced session identifier when the exchange succeeded, then unconditionally
increment the session message count, the rate counter and the last-activity
timestamp, and mark the latest recorded nudge answered if it was not. -/
def postTurnBookkeeping (result : TurnResult) (now : Nat)
    (st : SessionState) : SessionState :=
  -- Capture and store the UUID from Claude's response
  let st1 := if result.success && jsTruthy result.sessionId then
      setCurrentUuid st (result.sessionId.getD "")
    else st
  -- Increment message count
  let st2 := incrementMessageCount st1
  -- Increment rate limit counter
  let st3 := rateIncrement st2
  -- Update last message time (for nudge system)
  let st4 := updateLastMessageTime st3 now
  -- Mark last nudge as responded (if there was one)
  match loadSessionMetadata st4 with
  | some metadata =>
    match metadata.nudgeHistory.getLast? with
    | some lastNudge =>
      if !lastNudge.userResponded then markNudgeResponded st4 lastNudge.timestamp
      else st4
    | none => st4
  | none => st4

/-! ## Command dispatch (bot-manager.js 631–723) -/

/-- The `/start` / `/help` text (lines 643–658).  Date/size formatting of the
`/stats` reply is elided below; no analyzed property depends on it. -/
def helpText (botId : String) (brain : Brain) : String :=
  let base :=
    "👋 Hi! I\x27m " ++ jsOr (brain.name.getD "") "a bot" ++ ".\n\n" ++
    jsOr (brain.description.getD "") "I\x27m here to chat!" ++
    "\n\nJust send me a message and I\x27ll respond.\n\n" ++
    "Commands:\n/help - Show this help message\n/tts - Toggle voice/text mode\n/stats - Show conversation stats"
  -- Add /restart command for CartoonGen only
  if botId = "cartooned" then base ++ "\n/restart - Start fresh conversation"
  else base

/-- The `/stats` reply (lines 706–711); the `created` / `modified` /
`sizeBytes` locale formatting of the source is abstracted away, only the
message count is reflected. -/
def statsText (metadata : SessionState) : String :=
  "📊 **Conversation Stats**\n\nMessages: " ++ toString metadata.messageCount

/-- `BotManager.handleCommand`: the command token is the first
space-separated chunk of the RAW `msg.text`, lowercased.  Returns the channel
events and the updated session state. -/
def handleCommand (botId : String) (brain : Brain) (chatId : Int)
    (rawText : String) (st : SessionState) : List Event × SessionState :=
  let command := jsToLower (jsSplitFirst rawText)
  if command = "/start" || command = "/help" then
    ([.sentMessage chatId (helpText botId brain)], st)
  else if command = "/reset" then
    -- INTERNAL: Silent reset - clears UUID but keeps tracking
    (([] : List Event), resetConversation st)
  else if command = "/restart" then
    if botId = "cartooned" then
      ([.sentMessage chatId "🔄 Conversation restarted!"], resetConversation st)
    else
      ([.sentMessage chatId "❓ This command is not available for this bot. Try /help"], st)
  else if command = "/tts" then
    let currentTtsPref := getTtsPreference st
    let brainDefault := brainTtsEnabled brain
    -- If no preference set, use opposite of brain default
    -- If preference is set, toggle it
    let currentState := match currentTtsPref with
      | some p => p
      | none => brainDefault
    let newState := !currentState
    let confirmationMsg := if newState then "🎙️ Speech Mode Activated"
      else "💬 Text Mode Activated"
    ([.sentMessage chatId confirmationMsg], setTtsPreference st newState)
  else if command = "/stats" then
    match loadSessionMetadata st with
    | some metadata => ([.sentMessage chatId (statsText metadata)], st)
    | none =>
      ([.sentMessage chatId "📊 No conversation history yet. Send a message to start!"], st)
  else
    ([.sentMessage chatId "❓ Unknown command. Try /help for available commands."], st)

/-! ## The turn handler (bot-manager.js 87–623) -/

/-- `BotManager.handleMessage`, with the external collaborators as oracles:

* `rateLimit` — what `rateLimiter.checkLimit` would return;
* `photoFetch` — the base64 payload of a successfully downloaded photo, or
  `none` when the download/convert failed (the source continues without
  media);
* `systemPrompt` / `securityReminder` — what the brain loader returns;
* `agent` — the external agent exchange outcome (the same one agent call is
  made per turn, through one of the three client entry points);
* `now` — `Date.now()` at bookkeeping time.

The bot-registry lookup is assumed to succeed (the model is the handler of a
registered bot); logging and the bot-level `messageCount` counter are not
observable and not modelled.  Channel sends are assumed to be delivered, so
the only exception source reaching the top-level catch is the agent call. -/
def handleMessage (botId : String) (brain : Brain) (msg : InboundMessage)
    (st : SessionState) (rateLimit : RateLimitResult)
    (photoFetch : Option String) (systemPrompt : String)
    (securityReminder : Option String) (agent : AgentOutcome) (now : Nat) :
    TurnOutput :=
  let chatId := msg.chatId
  let text := msgEffectiveText msg
  let hasPhoto := !msg.photo.isEmpty
  -- Ignore messages with no text AND no photo
  if text = "" && !hasPhoto then { finalState := st }
  -- Handle commands
  else if jsStartsWith text "/" then
    match msg.text with
    | some raw =>
      let (events, st') := handleCommand botId brain chatId raw st
      { events := events, finalState := st' }
    | none =>
      -- `msg.text.split(' ')` raises a TypeError when the command text came
      -- from a caption; the exception escapes before any channel send or
      -- session-state change (and before any rate-limit consultation)
      { finalState := st }
  -- Check rate limit
  else if !rateLimit.allowed then
    { events := [.sentMessage chatId (limitNotice rateLimit.limit rateLimit.current)],
      rateChecked := true, finalState := st }
  else
    -- Send "thinking" indicator
    let statusEvents := [Event.statusSent chatId "⏳ Thinking..."]
    let photoBase64 := if hasPhoto then photoFetch else none
    let isNewSession := (getCurrentUuid st).isNone
    -- Build message content based on whether we have an image
    let fullMessage :=
      match photoBase64 with
      | some _ =>
        mkPrefixText isNewSession systemPrompt securityReminder ++ "\n" ++
          jsOr text "(user sent an image)" ++ " [IMAGE]"
      | none => mkFullMessageText isNewSession systemPrompt securityReminder text
    let contentText :=
      match photoBase64 with
      | some _ =>
        some (mkPrefixText isNewSession systemPrompt securityReminder ++ "\n" ++
          jsOr text "(user sent an image)")
      | none => none
    -- Mode selection: image request, else effective TTS, else streamed text
    let kind :=
      if isImageRequest brain text then AgentCallKind.image
      else if effectiveTts (getTtsPreference st) brain then AgentCallKind.tts
      else AgentCallKind.textStream
    let callSpec : AgentCallSpec :=
      { kind := kind, message := fullMessage, contentText := contentText,
        sessionId := getCurrentUuid st }
    match agent with
    | .thrown errMsg =>
      -- top-level catch: apology with the exception's message; the thinking
      -- indicator is not deleted and no bookkeeping ran
      { events := statusEvents ++ [.sentMessage chatId (exceptionApology errMsg)],
        agentCall := some callSpec, rateChecked := true, finalState := st }
    | .ok result genImages =>
      -- `result.generatedImages` is only attached in the streaming text branch
      let generatedImages := if kind = AgentCallKind.textStream then genImages else []
      let st4 := postTurnBookkeeping result now st
      let responseEvents :=
        if result.success &&
            (jsTruthy result.text || jsTruthy result.imagePath || jsTruthy result.audioPath) then
          dispatchSuccess brain chatId result generatedImages st4
        else
          -- Error from Claude
          [.sentMessage chatId (agentErrorMessage result)]
      { events := statusEvents ++ [Event.statusDeleted chatId] ++ responseEvents,
        agentCall := some callSpec, rateChecked := true, finalState := st4 }

/-! ## Health monitor (bot-manager.js 795–872) -/

/-- Bot health status. -/
inductive BotStatus where
  | healthy
  | unhealthy
  | failed
  deriving Repr, DecidableEq

/-- The per-bot state the health monitor reads and writes. -/
structure HealthState where
  status : BotStatus := .healthy
  errorCount : Nat := 0
  deriving Repr, DecidableEq

/-- What one health-check tick observes for a bot: the liveness probe
(`bot.isPolling()`) returns true, returns false, or the check body raises. -/
inductive LivenessProbe where
  | live
  | dead
  | raises
  deriving Repr, DecidableEq

/-- One iteration of the `performHealthChecks` loop for one bot.  Returns the
updated state and whether `recoverBot` was invoked by this tick.
(`recoverBot` is started without `await`; its own effects are applied by
`recoverStep` when it completes.) -/
def healthTick (s : HealthState) (probe : LivenessProbe) : HealthState × Bool :=
  match probe with
  | .live =>
    if s.status ≠ .healthy then ({ status := .healthy, errorCount := 0 }, false)
    else (s, false)
  | .dead =>
    if s.status ≠ .unhealthy then ({ s with status := .unhealthy }, true)
    else (s, false)
  | .raises =>
    let s' := { s with errorCount := s.errorCount + 1 }
    (s', decide (3 ≤ s'.errorCount))

/-- A run of consecutive health-check ticks, counting the `recoverBot`
invocations they trigger. -/
def runHealthTicks (s : HealthState) (probes : List LivenessProbe) :
    HealthState × Nat :=
  probes.foldl
    (fun acc probe =>
      let (s', invoked) := healthTick acc.1 probe
      (s', acc.2 + if invoked then 1 else 0))
    (s, 0)

/-- `recoverBot` completion: on successful recreation the bot is healthy with
a zero error count; when recreation raises, the status becomes `failed`. -/
def recoverStep (s : HealthState) (recreationSucceeded : Bool) : HealthState :=
  if recreationSucceeded then { status := .healthy, errorCount := 0 }
  else { s with status := .failed }

/-! ## Theorems -/

/-- The filter predicate of `getNextNudgeTrigger`, characterized: a trigger
fires iff its delay has been reached, it strictly exceeds the last sent
nudge's delay, and its `condition` field is the literal `'no_user_message'`. -/
theorem nudgeTriggerFires_iff (h l : ℚ) (t : NudgeTrigger) :
    nudgeTriggerFires h l t = true ↔
      t.delayHours ≤ h ∧ l < t.delayHours ∧ t.condition = some "no_user_message" := by
  unfold nudgeTriggerFires
  split_ifs with h1 h2 h3
  · simp only [Bool.false_eq_true, false_iff]
    rintro ⟨hdh, -, -⟩
    exact absurd hdh (not_le.mpr h1)
  · simp only [Bool.false_eq_true, false_iff]
    rintro ⟨-, hl, -⟩
    exact absurd h2 (not_le.mpr hl)
  · simpa using ⟨not_lt.mp h1, not_le.mp h2, h3⟩
  · simp only [Bool.false_eq_true, false_iff]
    rintro ⟨-, -, hc⟩
    exact h3 hc

/-- `getNextNudgeTrigger` unfolded to filter-sort-head form. -/
theorem getNextNudgeTrigger_eq (triggers : List NudgeTrigger) (h l : ℚ) :
    getNextNudgeTrigger triggers h l =
      ((triggers.filter (nudgeTriggerFires h l)).mergeSort
        (fun a b => a.delayHours ≤ b.delayHours)).head? := rfl

/-- C1 (counterexample): at the claim's own concrete input — triggers
`[{delayHours:24},{delayHours:72}]` with no `condition` field,
`hoursSinceLastMessage = 80`, `lastNudgeSent = 24` — the code selects no
trigger at all (it returns `null`), not the 72h trigger: a trigger whose
`condition` is not the literal `'no_user_message'` is filtered out even when
both delay conditions hold, so the condition check is not "always true once
the delay condition holds". -/
theorem getNextNudgeTrigger_unconditioned_never_fires :
    getNextNudgeTrigger [{ delayHours := 24 }, { delayHours := 72 }] 80 24 = none ∧
    getNextNudgeTrigger [{ delayHours := 24 }, { delayHours := 72 }] 80 24 ≠
      some { delayHours := 72 } := by
  have hval : getNextNudgeTrigger
      [{ delayHours := 24 }, { delayHours := 72 }] 80 24 = none := by
    rw [getNextNudgeTrigger_eq]
    have hfil : ([{ delayHours := 24 }, { delayHours := 72 }] :
        List NudgeTrigger).filter (nudgeTriggerFires 80 24) = [] := by decide
    rw [hfil, List.mergeSort_nil]
    rfl
  exact ⟨hval, by rw [hval]; exact Option.noConfusion⟩

/-- C1 (amended): `getNextNudgeTrigger` keeps exactly the triggers whose
`delayHours` has been reached, whose `delayHours` strictly exceeds the delay
of the last nudge already sent, and whose `condition` field equals
`'no_user_message'` (any other or missing condition makes the trigger
ineligible), and returns the eligible trigger with the smallest `delayHours`
(`none` if there is none); in particular, for the 24h/72h triggers both
carrying `condition:'no_user_message'`, with `hoursSinceLastMessage = 80` and
`lastNudgeSent = 24`, the 72h trigger is selected. -/
theorem getNextNudgeTrigger_selects_earliest_eligible :
    (∀ (triggers : List NudgeTrigger) (h l : ℚ) (t : NudgeTrigger),
      getNextNudgeTrigger triggers h l = some t →
        t ∈ triggers ∧ t.delayHours ≤ h ∧ l < t.delayHours ∧
          t.condition = some "no_user_message" ∧
          ∀ u ∈ triggers, nudgeTriggerFires h l u = true →
            t.delayHours ≤ u.delayHours) ∧
    (∀ (triggers : List NudgeTrigger) (h l : ℚ),
      getNextNudgeTrigger triggers h l = none ↔
        ∀ t ∈ triggers, nudgeTriggerFires h l t = false) ∧
    getNextNudgeTrigger
        [{ delayHours := 24, condition := some "no_user_message" },
         { delayHours := 72, condition := some "no_user_message" }] 80 24 =
      some { delayHours := 72, condition := some "no_user_message" } := by
  have hle_trans : ∀ a b c : NudgeTrigger,
      decide (a.delayHours ≤ b.delayHours) = true →
      decide (b.delayHours ≤ c.delayHours) = true →
      decide (a.delayHours ≤ c.delayHours) = true := by
    intro a b c hab hbc
    simp only [decide_eq_true_eq] at hab hbc ⊢
    exact le_trans hab hbc
  have hle_total : ∀ a b : NudgeTrigger,
      (decide (a.delayHours ≤ b.delayHours) ||
       decide (b.delayHours ≤ a.delayHours)) = true := by
    intro a b
    simpa using le_total a.delayHours b.delayHours
  have hconc : getNextNudgeTrigger
      [{ delayHours := 24, condition := some "no_user_message" },
       { delayHours := 72, condition := some "no_user_message" }] 80 24 =
      some { delayHours := 72, condition := some "no_user_message" } := by
    rw [getNextNudgeTrigger_eq]
    have hfil : ([{ delayHours := 24, condition := some "no_user_message" },
        { delayHours := 72, condition := some "no_user_message" }] :
        List NudgeTrigger).filter (nudgeTriggerFires 80 24) =
        [{ delayHours := 72, condition := some "no_user_message" }] := by decide
    rw [hfil, List.mergeSort_singleton]
    rfl
  refine ⟨?_, ?_, hconc⟩
  · intro ts h l t hsome
    rw [getNextNudgeTrigger_eq] at hsome
    have hperm := List.mergeSort_perm (ts.filter (nudgeTriggerFires h l))
      (fun a b => decide (a.delayHours ≤ b.delayHours))
    have hsorted := List.sorted_mergeSort hle_trans hle_total
      (ts.filter (nudgeTriggerFires h l))
    cases hs : (ts.filter (nudgeTriggerFires h l)).mergeSort
        (fun a b => a.delayHours ≤ b.delayHours) with
    | nil => rw [hs] at hsome; exact absurd hsome (by simp)
    | cons a rest =>
      rw [hs] at hsome
      have hat : a = t := by simpa using hsome
      subst hat
      rw [hs] at hperm hsorted
      have htmem : a ∈ ts.filter (nudgeTriggerFires h l) :=
        hperm.mem_iff.mp (List.mem_cons_self a rest)
      have hmf := List.mem_filter.mp htmem
      have hfi := (nudgeTriggerFires_iff h l a).mp hmf.2
      refine ⟨hmf.1, hfi.1, hfi.2.1, hfi.2.2, ?_⟩
      intro u hu hufires
      have humem : u ∈ a :: rest :=
        hperm.mem_iff.mpr (List.mem_filter.mpr ⟨hu, hufires⟩)
      rcases List.mem_cons.mp humem with huv | hur
      · rw [huv]
      · have := (List.pairwise_cons.mp hsorted).1 u hur
        simpa using this
  · intro ts h l
    rw [getNextNudgeTrigger_eq, List.head?_eq_none_iff]
    constructor
    · intro hnil t ht
      by_contra hfi
      have hfi' : nudgeTriggerFires h l t = true := by
        cases hv : nudgeTriggerFires h l t with
        | false => exact absurd hv hfi
        | true => rfl
      have hperm := List.mergeSort_perm (ts.filter (nudgeTriggerFires h l))
        (fun a b => decide (a.delayHours ≤ b.delayHours))
      have : t ∈ (ts.filter (nudgeTriggerFires h l)).mergeSort
          (fun a b => a.delayHours ≤ b.delayHours) :=
        hperm.mem_iff.mpr (List.mem_filter.mpr ⟨ht, hfi'⟩)
      rw [hnil] at this
      simp at this
    · intro hall
      have hfil : ts.filter (nudgeTriggerFires h l) = [] :=
        List.filter_eq_nil_iff.mpr (fun a ha => by simp [hall a ha])
      rw [hfil, List.mergeSort_nil]

/-- Witness for `getNextNudgeTrigger_selects_earliest_eligible`: its first
part applied at a concrete singleton trigger list. -/
theorem getNextNudgeTrigger_selects_earliest_eligible_witness :
    ({ delayHours := 72, condition := some "no_user_message" } : NudgeTrigger) ∈
        [({ delayHours := 72, condition := some "no_user_message" } : NudgeTrigger)] ∧
      (72 : ℚ) ≤ 80 ∧ (24 : ℚ) < 72 ∧
      (some "no_user_message" : Option String) = some "no_user_message" ∧
      ∀ u ∈ [({ delayHours := 72, condition := some "no_user_message" } : NudgeTrigger)],
        nudgeTriggerFires 80 24 u = true → (72 : ℚ) ≤ u.delayHours :=
  getNextNudgeTrigger_selects_earliest_eligible.1
    [{ delayHours := 72, condition := some "no_user_message" }] 80 24
    { delayHours := 72, condition := some "no_user_message" }
    (by
      rw [getNextNudgeTrigger_eq]
      have hfil : ([{ delayHours := 72, condition := some "no_user_message" }] :
          List NudgeTrigger).filter (nudgeTriggerFires 80 24) =
          [{ delayHours := 72, condition := some "no_user_message" }] := by decide
      rw [hfil, List.mergeSort_singleton]
      rfl)

/-- C4: the turn is classified as an image turn exactly when the brain has
`imageGen.enabled === true` and the lowercased text contains at least one of
the six keywords `image, picture, photo, draw, generate, create a`; in
particular "turn me into a cartoon" with image generation enabled is not an
image request, and sent as a photo caption to such a bot (TTS off) it is
routed to the streaming text call, not the image call. -/
theorem imageTurn_classification :
    (∀ (brain : Brain) (text : String),
      isImageRequest brain text =
        (imageGenEnabled brain &&
          (["image", "picture", "photo", "draw", "generate", "create a"].any
            (fun kw => jsIncludes (jsToLower text) kw)))) ∧
    isImageRequest { imageGen := some { enabled := true } } "turn me into a cartoon" = false ∧
    ((handleMessage "bot" { imageGen := some { enabled := true } }
        { chatId := 1, caption := some "turn me into a cartoon", photo := ["p"] }
        {} { allowed := true } (some "B64") "SYS" none (.ok {} []) 0).agentCall.map
      AgentCallSpec.kind) = some AgentCallKind.textStream := by
  refine ⟨?_, by decide, by decide⟩
  intro brain text
  simp only [isImageRequest, List.any_cons, List.any_nil, Bool.or_false, Bool.or_assoc]

/-- C8: the effective TTS decision (`ttsEnabled`, bot-manager.js 284–287) is
the explicit per-user preference whenever one is set, for any brain — so two
brains differing (in particular, only) in `tts.enabled` produce the same
decision — and the brain default is consulted exactly when the preference is
unset. -/
theorem tts_preference_noninterference :
    ∀ (brain brain2 : Brain) (pref : Option Bool) (b : Bool),
      pref = some b →
      effectiveTts pref brain = b ∧ effectiveTts pref brain2 = b ∧
      effectiveTts pref brain = effectiveTts pref brain2 ∧
      effectiveTts none brain = brainTtsEnabled brain := by
  intro brain brain2 pref b hpref
  subst hpref
  exact ⟨rfl, rfl, rfl, rfl⟩

/-- Witness for `tts_preference_noninterference`: preference `false` against
a brain with TTS enabled and a brain with no TTS block. -/
theorem tts_preference_noninterference_witness :
    effectiveTts (some false) { tts := some { enabled := true } } = false ∧
      effectiveTts (some false) ({} : Brain) = false ∧
      effectiveTts (some false) { tts := some { enabled := true } } =
        effectiveTts (some false) ({} : Brain) ∧
      effectiveTts none { tts := some { enabled := true } } =
        brainTtsEnabled { tts := some { enabled := true } } :=
  tts_preference_noninterference { tts := some { enabled := true } } {}
    (some false) false rfl

/-- C5: starting from a healthy bot with a zero error count, a run of three
consecutive failed liveness probes triggers exactly one `recoverBot`
invocation (on the first failure; the later failures see the bot already
unhealthy), and a run of three check exceptions also triggers exactly one
(at the third increment); when recreation succeeds the bot is healthy with
error count `0`, and when recreation raises the status becomes `failed`. -/
theorem health_monitor_recovery :
    ∀ s : HealthState, s.status = .healthy → s.errorCount = 0 →
      (runHealthTicks s [.dead, .dead, .dead]).2 = 1 ∧
      (runHealthTicks s [.raises, .raises, .raises]).2 = 1 ∧
      (∀ s' : HealthState,
        recoverStep s' true = { status := .healthy, errorCount := 0 }) ∧
      (∀ s' : HealthState, (recoverStep s' false).status = .failed) := by
  rintro ⟨st, ec⟩ h1 h2
  simp only at h1 h2
  subst h1
  subst h2
  refine ⟨by decide, by decide, ?_, ?_⟩
  · intro s'
    rfl
  · intro s'
    rfl

/-- Witness for `health_monitor_recovery` at the state `⟨healthy, 0⟩`. -/
theorem health_monitor_recovery_witness :
    (runHealthTicks { status := .healthy, errorCount := 0 }
      [.dead, .dead, .dead]).2 = 1 ∧
    (runHealthTicks { status := .healthy, errorCount := 0 }
      [.raises, .raises, .raises]).2 = 1 ∧
    (∀ s' : HealthState,
      recoverStep s' true = { status := .healthy, errorCount := 0 }) ∧
    (∀ s' : HealthState, (recoverStep s' false).status = .failed) :=
  health_monitor_recovery { status := .healthy, errorCount := 0 } rfl rfl

/-- C3: for every non-command inbound message with non-empty text or media,
when `checkLimit` denies the request the whole turn is exactly one
limit-notice send (showing current/limit and the midnight reset), with no
agent call and no session-state mutation — regardless of media presence. -/
theorem rate_limit_gate
    (botId : String) (brain : Brain) (msg : InboundMessage)
    (st : SessionState) (rateLimit : RateLimitResult)
    (photoFetch : Option String) (systemPrompt : String)
    (securityReminder : Option String) (agent : AgentOutcome) (now : Nat)
    (hne : ¬(msgEffectiveText msg = "" ∧ msg.photo = []))
    (hnotcmd : jsStartsWith (msgEffectiveText msg) "/" = false)
    (hdenied : rateLimit.allowed = false) :
    handleMessage botId brain msg st rateLimit photoFetch systemPrompt
        securityReminder agent now =
      { events := [.sentMessage msg.chatId
          (limitNotice rateLimit.limit rateLimit.current)],
        agentCall := none, rateChecked := true, finalState := st } := by
  unfold handleMessage
  have h1 : (decide (msgEffectiveText msg = "") && !(!msg.photo.isEmpty)) = false := by
    rcases not_and_or.mp hne with h | h
    · simp [h]
    · simp [List.isEmpty_iff, h]
  simp [h1, hnotcmd, hdenied]
  exact fun h hp => hne ⟨h, hp⟩

/-- Witness for `rate_limit_gate`: a photo-caption message against an
exhausted limit of 50. -/
theorem rate_limit_gate_witness :
    handleMessage "bot" {} { chatId := 7, caption := some "hi", photo := ["p"] }
        {} { allowed := false, limit := 50, current := 50 } (some "B64") "SYS"
        none (.ok {} []) 0 =
      { events := [.sentMessage 7 (limitNotice 50 50)],
        agentCall := none, rateChecked := true, finalState := {} } :=
  rate_limit_gate "bot" {} { chatId := 7, caption := some "hi", photo := ["p"] }
    {} { allowed := false, limit := 50, current := 50 } (some "B64") "SYS"
    none (.ok {} []) 0 (by decide) (by decide) rfl

/-- C9: a message whose effective (trimmed) text starts with `/` is handed to
the command dispatcher before the rate limiter is ever consulted: the rate
check does not happen, the rate counter is unchanged, the whole outcome is
independent of the rate-limit verdict (so commands are executed and answered
even for a user whose daily limit is exhausted), and when the raw message
text is present the outcome is exactly the command handler's. -/
theorem commands_bypass_rate_gate
    (botId : String) (brain : Brain) (msg : InboundMessage)
    (st : SessionState) (rl rl' : RateLimitResult)
    (pf : Option String) (sys : String) (sec : Option String)
    (agent : AgentOutcome) (now : Nat)
    (hcmd : jsStartsWith (msgEffectiveText msg) "/" = true) :
    (handleMessage botId brain msg st rl pf sys sec agent now).rateChecked = false ∧
    (handleMessage botId brain msg st rl pf sys sec agent now).finalState.rateCount
      = st.rateCount ∧
    handleMessage botId brain msg st rl pf sys sec agent now =
      handleMessage botId brain msg st rl' pf sys sec agent now ∧
    (∀ raw, msg.text = some raw →
      (handleMessage botId brain msg st rl pf sys sec agent now).events =
        (handleCommand botId brain msg.chatId raw st).1 ∧
      (handleMessage botId brain msg st rl pf sys sec agent now).finalState =
        (handleCommand botId brain msg.chatId raw st).2) := by
  have hne : msgEffectiveText msg ≠ "" := by
    intro h
    rw [h] at hcmd
    simp [jsStartsWith] at hcmd
  have h2 : ¬(msgEffectiveText msg = "" ∧ msg.photo = []) := fun h => hne h.1
  have hrc : ∀ raw,
      ((handleCommand botId brain msg.chatId raw st).2).rateCount = st.rateCount := by
    intro raw
    simp only [handleCommand]
    repeat' split
    all_goals rfl
  unfold handleMessage
  simp [h2, hcmd]
  refine ⟨?_, ?_, ?_⟩
  · cases msg.text <;> simp
  · cases htext : msg.text <;> simp [hrc]
  · intro raw hraw
    simp [hraw]

/-- Witness for `commands_bypass_rate_gate`: `/help` from a user whose limit
is already exhausted, compared against an allowed-run of the same turn. -/
theorem commands_bypass_rate_gate_witness :
    (handleMessage "bot" {} { chatId := 3, text := some "/help" } {}
      { allowed := false, limit := 5, current := 5 } none "SYS" none
      (.ok {} []) 0).rateChecked = false ∧
    (handleMessage "bot" {} { chatId := 3, text := some "/help" } {}
      { allowed := false, limit := 5, current := 5 } none "SYS" none
      (.ok {} []) 0).finalState.rateCount = SessionState.rateCount {} ∧
    handleMessage "bot" {} { chatId := 3, text := some "/help" } {}
      { allowed := false, limit := 5, current := 5 } none "SYS" none
      (.ok {} []) 0 =
      handleMessage "bot" {} { chatId := 3, text := some "/help" } {}
        { allowed := true } none "SYS" none (.ok {} []) 0 ∧
    (∀ raw, InboundMessage.text { chatId := 3, text := some "/help" } = some raw →
      (handleMessage "bot" {} { chatId := 3, text := some "/help" } {}
        { allowed := false, limit := 5, current := 5 } none "SYS" none
        (.ok {} []) 0).events = (handleCommand "bot" {} 3 raw {}).1 ∧
      (handleMessage "bot" {} { chatId := 3, text := some "/help" } {}
        { allowed := false, limit := 5, current := 5 } none "SYS" none
        (.ok {} []) 0).finalState = (handleCommand "bot" {} 3 raw {}).2) :=
  commands_bypass_rate_gate "bot" {} { chatId := 3, text := some "/help" } {}
    { allowed := false, limit := 5, current := 5 } { allowed := true } none
    "SYS" none (.ok {} []) 0 (by decide)

/-- C7: on a text-only turn (no photo) the prompt handed to the agent is
`mkFullMessageText`: the personality system prompt appears on new sessions
only, the security reminder (when the brain's security profile yields one) is
included on every turn — new or resumed — and the prompt ends with `User: `
followed by the user's literal text; in particular a new user sending
"hello" yields system prompt + (security reminder, if enabled) + "User: hello". -/
theorem text_turn_prompt :
    (∀ (botId : String) (brain : Brain) (msg : InboundMessage)
        (st : SessionState) (rl : RateLimitResult) (pf : Option String)
        (sys : String) (sec : Option String) (agent : AgentOutcome) (now : Nat),
      jsStartsWith (msgEffectiveText msg) "/" = false →
      msgEffectiveText msg ≠ "" →
      rl.allowed = true →
      msg.photo = [] →
      ((handleMessage botId brain msg st rl pf sys sec agent now).agentCall.map
          AgentCallSpec.message) =
        some (mkFullMessageText (getCurrentUuid st).isNone sys sec
          (msgEffectiveText msg)) ∧
      ((handleMessage botId brain msg st rl pf sys sec agent now).agentCall.map
          AgentCallSpec.sessionId) = some (getCurrentUuid st)) ∧
    (∀ (sys r text : String), r ≠ "" →
      mkFullMessageText true sys (some r) text =
        sys ++ "\n\n---\n\n" ++ r ++ "\n\nUser: " ++ text ∧
      mkFullMessageText false sys (some r) text = r ++ "\n\nUser: " ++ text) ∧
    (∀ (sys text : String),
      mkFullMessageText true sys none text = sys ++ "\n\nUser: " ++ text ∧
      mkFullMessageText false sys none text = "User: " ++ text) ∧
    ((handleMessage "bot" {} { chatId := 1, text := some "hello" } {}
        { allowed := true } none "SYS" (some "SEC") (.ok {} []) 0).agentCall.map
      AgentCallSpec.message) = some "SYS\n\n---\n\nSEC\n\nUser: hello" ∧
    ((handleMessage "bot" {} { chatId := 1, text := some "hello" } {}
        { allowed := true } none "SYS" none (.ok {} []) 0).agentCall.map
      AgentCallSpec.message) = some "SYS\n\nUser: hello" := by
  refine ⟨?_, ?_, ?_, by decide, by decide⟩
  · intro botId brain msg st rl pf sys sec agent now hnotcmd hne hallowed hnophoto
    have h2 : ¬(msgEffectiveText msg = "" ∧ msg.photo = []) := fun h => hne h.1
    unfold handleMessage
    cases agent <;> simp [h2, hnotcmd, hallowed, hnophoto, hne]
  · intro sys r text hr
    constructor <;> simp [mkFullMessageText, jsTruthy, hr]
  · intro sys text
    constructor <;> simp [mkFullMessageText, jsTruthy]

/-- Witness for `text_turn_prompt`: its first part at a concrete resumed
session with a reminder-bearing brain. -/
theorem text_turn_prompt_witness :
    ((handleMessage "bot" { tts := some { enabled := true } }
        { chatId := 2, text := some "hey" } { currentUuid := some "u0" }
        { allowed := true } none "SYS" (some "SEC")
        (.ok { success := true } []) 5).agentCall.map AgentCallSpec.message) =
      some (mkFullMessageText
        (getCurrentUuid { currentUuid := some "u0" }).isNone "SYS" (some "SEC")
        (msgEffectiveText { chatId := 2, text := some "hey" })) ∧
    ((handleMessage "bot" { tts := some { enabled := true } }
        { chatId := 2, text := some "hey" } { currentUuid := some "u0" }
        { allowed := true } none "SYS" (some "SEC")
        (.ok { success := true } []) 5).agentCall.map AgentCallSpec.sessionId) =
      some (getCurrentUuid { currentUuid := some "u0" }) :=
  text_turn_prompt.1 "bot" { tts := some { enabled := true } }
    { chatId := 2, text := some "hey" } { currentUuid := some "u0" }
    { allowed := true } none "SYS" (some "SEC") (.ok { success := true } []) 5
    (by decide) (by decide) rfl rfl

/-- C2 (counterexample): a turn whose agent exchange completes with
`success: false` still increments the session message count and the rate
counter, still updates the last-activity timestamp, and still marks the
latest unanswered nudge answered — contradicting "none of these mutations
occurs when the exchange fails".  (Only the session-identifier persistence
is success-gated.) -/
theorem post_turn_bookkeeping_counterexample :
    (handleMessage "bot" {} { chatId := 5, text := some "hi" }
        { nudgeHistory := [{ timestamp := 11 }] } { allowed := true } none
        "SYS" none (.ok { success := false, error := some "boom" } []) 99).finalState =
      { nudgeHistory := [{ timestamp := 11, userResponded := true }],
        messageCount := 1, rateCount := 1, lastMessageTime := 99 } ∧
    ({ nudgeHistory := [{ timestamp := 11 }] } : SessionState).messageCount = 0 ∧
    ({ nudgeHistory := [{ timestamp := 11 }] } : SessionState).rateCount = 0 := by
  refine ⟨by decide, rfl, rfl⟩

/-- C2 (amended): after a completed (non-raising) agent exchange the
bookkeeping of lines 429–452 runs regardless of the success flag: the
message count and rate counter are incremented, the last-activity timestamp
is set, and the latest recorded nudge, if unanswered, is marked answered;
the surfaced session identifier is persisted exactly when the exchange
succeeded AND an identifier was surfaced.  When the agent call raises, the
top-level catch skips all of these mutations. -/
theorem post_turn_bookkeeping_spec :
    (∀ (botId : String) (brain : Brain) (msg : InboundMessage)
        (st : SessionState) (rl : RateLimitResult) (pf : Option String)
        (sys : String) (sec : Option String) (now : Nat) (r : TurnResult)
        (gi : List String),
      jsStartsWith (msgEffectiveText msg) "/" = false →
      msgEffectiveText msg ≠ "" →
      rl.allowed = true →
      (handleMessage botId brain msg st rl pf sys sec (.ok r gi) now).finalState =
        postTurnBookkeeping r now st) ∧
    (∀ (botId : String) (brain : Brain) (msg : InboundMessage)
        (st : SessionState) (rl : RateLimitResult) (pf : Option String)
        (sys : String) (sec : Option String) (now : Nat) (e : String),
      jsStartsWith (msgEffectiveText msg) "/" = false →
      msgEffectiveText msg ≠ "" →
      rl.allowed = true →
      (handleMessage botId brain msg st rl pf sys sec (.thrown e) now).finalState
        = st) ∧
    (∀ (r : TurnResult) (now : Nat) (st : SessionState),
      (postTurnBookkeeping r now st).messageCount = st.messageCount + 1 ∧
      (postTurnBookkeeping r now st).rateCount = st.rateCount + 1 ∧
      (postTurnBookkeeping r now st).lastMessageTime = now ∧
      (postTurnBookkeeping r now st).ttsPreference = st.ttsPreference ∧
      (postTurnBookkeeping r now st).currentUuid =
        (if r.success && jsTruthy r.sessionId then r.sessionId
         else st.currentUuid)) ∧
    (∀ (r : TurnResult) (now : Nat) (st : SessionState) (last : NudgeRecord),
      st.metadataExists = true →
      st.nudgeHistory.getLast? = some last →
      last.userResponded = false →
      (postTurnBookkeeping r now st).nudgeHistory.getLast? =
        some { last with userResponded := true }) := by
  refine ⟨?_, ?_, ?_, ?_⟩
  · intro botId brain msg st rl pf sys sec now r gi hnotcmd hne hallowed
    unfold handleMessage
    simp [hne, hnotcmd, hallowed]
  · intro botId brain msg st rl pf sys sec now e hnotcmd hne hallowed
    unfold handleMessage
    simp [hne, hnotcmd, hallowed]
  · intro r now st
    unfold postTurnBookkeeping
    by_cases hc : (r.success && jsTruthy r.sessionId) = true
    · have hsid : ∃ s, r.sessionId = some s ∧ s ≠ "" := by
        rcases Bool.and_eq_true_iff.mp hc with ⟨-, htr⟩
        cases hs : r.sessionId with
        | none => rw [hs] at htr; simp [jsTruthy] at htr
        | some s =>
          refine ⟨s, rfl, ?_⟩
          rw [hs] at htr
          simpa [jsTruthy] using htr
      rcases hsid with ⟨s, hs, -⟩
      rw [if_pos hc, if_pos hc]
      simp only [setCurrentUuid, incrementMessageCount, rateIncrement,
        updateLastMessageTime, loadSessionMetadata]
      repeat' split
      all_goals simp [markNudgeResponded, hs]
    · rw [if_neg hc, if_neg hc]
      simp only [incrementMessageCount, rateIncrement, updateLastMessageTime,
        loadSessionMetadata]
      repeat' split
      all_goals simp [markNudgeResponded]
  · intro r now st last hmeta hlast hunresp
    unfold postTurnBookkeeping
    by_cases hc : (r.success && jsTruthy r.sessionId) = true
    all_goals
      simp only [hc, if_pos, if_neg, setCurrentUuid, incrementMessageCount,
        rateIncrement, updateLastMessageTime, loadSessionMetadata]
    all_goals
      simp [hmeta, hlast, hunresp, markNudgeResponded, List.getLast?_map]

/-- Witness for `post_turn_bookkeeping_spec`: its first part at a concrete
completed exchange. -/
theorem post_turn_bookkeeping_spec_witness :
    (handleMessage "bot" {} { chatId := 5, text := some "hi" } {}
        { allowed := true } none "SYS" none
        (.ok { success := true, text := some "ok" } []) 42).finalState =
      postTurnBookkeeping { success := true, text := some "ok" } 42 {} :=
  post_turn_bookkeeping_spec.1 "bot" {} { chatId := 5, text := some "hi" } {}
    { allowed := true } none "SYS" none 42 { success := true, text := some "ok" }
    [] (by decide) (by decide) rfl

/-- C6 (counterexample): the failure replies DO embed internal detail: a
failed agent result's `error` string is interpolated into the user-visible
message, and a thrown exception's message likewise. -/
theorem error_detail_leak_counterexample :
    (handleMessage "bot" {} { chatId := 5, text := some "hi" } {}
        { allowed := true } none "SYS" none
        (.ok { success := false, error := some "ECONNREFUSED 127.0.0.1" } []) 0).events =
      [.statusSent 5 "⏳ Thinking...", .statusDeleted 5,
       .sentMessage 5 "❌ Sorry, I encountered an error: ECONNREFUSED 127.0.0.1"] ∧
    jsIncludes "❌ Sorry, I encountered an error: ECONNREFUSED 127.0.0.1"
      "ECONNREFUSED 127.0.0.1" = true ∧
    (handleMessage "bot" {} { chatId := 5, text := some "hi" } {}
        { allowed := true } none "SYS" none
        (.thrown "TypeError: fetch failed") 0).events =
      [.statusSent 5 "⏳ Thinking...",
       .sentMessage 5 "❌ Sorry, something went wrong: TypeError: fetch failed"] ∧
    jsIncludes "❌ Sorry, something went wrong: TypeError: fetch failed"
      "TypeError: fetch failed" = true := by
  refine ⟨by decide, by decide, by decide, by decide⟩

/-- C6 (amended): every failure path of a turn sends exactly one user-facing
message after the thinking indicator: a fixed apology prefix followed by the
internal error detail — the agent result's `error` string (or
`Unknown error` when absent/empty) for a completed-but-rejected exchange,
and the exception's message for a raised exception.  The detail is thus
included, not withheld. -/
theorem failure_reply_spec :
    (∀ (botId : String) (brain : Brain) (msg : InboundMessage)
        (st : SessionState) (rl : RateLimitResult) (pf : Option String)
        (sys : String) (sec : Option String) (now : Nat) (r : TurnResult)
        (gi : List String),
      jsStartsWith (msgEffectiveText msg) "/" = false →
      msgEffectiveText msg ≠ "" →
      rl.allowed = true →
      (r.success && (jsTruthy r.text || jsTruthy r.imagePath ||
        jsTruthy r.audioPath)) = false →
      (handleMessage botId brain msg st rl pf sys sec (.ok r gi) now).events =
        [.statusSent msg.chatId "⏳ Thinking...", .statusDeleted msg.chatId,
         .sentMessage msg.chatId (agentErrorMessage r)]) ∧
    (∀ (botId : String) (brain : Brain) (msg : InboundMessage)
        (st : SessionState) (rl : RateLimitResult) (pf : Option String)
        (sys : String) (sec : Option String) (now : Nat) (e : String),
      jsStartsWith (msgEffectiveText msg) "/" = false →
      msgEffectiveText msg ≠ "" →
      rl.allowed = true →
      (handleMessage botId brain msg st rl pf sys sec (.thrown e) now).events =
        [.statusSent msg.chatId "⏳ Thinking...",
         .sentMessage msg.chatId (exceptionApology e)]) ∧
    (∀ r : TurnResult, agentErrorMessage r =
      "❌ Sorry, I encountered an error: " ++ jsOr (r.error.getD "") "Unknown error") ∧
    (∀ e : String, exceptionApology e = "❌ Sorry, something went wrong: " ++ e) := by
  refine ⟨?_, ?_, fun _ => rfl, fun _ => rfl⟩
  · intro botId brain msg st rl pf sys sec now r gi hnotcmd hne hallowed hfail
    have hP : ¬(r.success = true ∧ ((jsTruthy r.text = true ∨
        jsTruthy r.imagePath = true) ∨ jsTruthy r.audioPath = true)) := by
      simpa [and_assoc, or_assoc] using hfail
    unfold handleMessage
    simp [hne, hnotcmd, hallowed, hP]
  · intro botId brain msg st rl pf sys sec now e hnotcmd hne hallowed
    unfold handleMessage
    simp [hne, hnotcmd, hallowed]

/-- Witness for `failure_reply_spec`: its first part at a concrete failed
exchange. -/
theorem failure_reply_spec_witness :
    (handleMessage "bot" {} { chatId := 5, text := some "hi" } {}
        { allowed := true } none "SYS" none
        (.ok { success := false, error := some "boom" } []) 0).events =
      [.statusSent 5 "⏳ Thinking...", .statusDeleted 5,
       .sentMessage 5 (agentErrorMessage { success := false, error := some "boom" })] :=
  failure_reply_spec.1 "bot" {} { chatId := 5, text := some "hi" } {}
    { allowed := true } none "SYS" none 0
    { success := false, error := some "boom" } [] (by decide) (by decide) rfl rfl

/-- C10: `/tts` stores the negation of the current effective TTS state — the
stored preference when set, otherwise the brain default — so the first
`/tts` ever issued always flips away from the brain default, and the
confirmation message (speech vs text mode) matches the newly stored
state. -/
theorem tts_toggle_spec :
    ∀ (botId : String) (brain : Brain) (chatId : Int) (raw : String)
      (st : SessionState),
      jsToLower (jsSplitFirst raw) = "/tts" →
      (handleCommand botId brain chatId raw st).2 =
        setTtsPreference st (!(effectiveTts (getTtsPreference st) brain)) ∧
      ((handleCommand botId brain chatId raw st).2).ttsPreference =
        some (!(effectiveTts (getTtsPreference st) brain)) ∧
      (handleCommand botId brain chatId raw st).1 =
        [.sentMessage chatId (if effectiveTts (getTtsPreference st) brain
          then "💬 Text Mode Activated" else "🎙️ Speech Mode Activated")] := by
  intro botId brain chatId raw st hcmd
  simp only [handleCommand, hcmd]
  norm_num
  cases hcur : effectiveTts (getTtsPreference st) brain <;>
    simp [effectiveTts, setTtsPreference] at hcur ⊢ <;>
    simp [hcur]

/-- Witness for `tts_toggle_spec`: the first `/tts` of a user of a brain with
no TTS block flips the stored preference to `true` (speech mode). -/
theorem tts_toggle_spec_witness :
    (handleCommand "bot" {} 9 "/tts" {}).2 =
      setTtsPreference {} (!(effectiveTts (getTtsPreference {}) {})) ∧
    ((handleCommand "bot" {} 9 "/tts" {}).2).ttsPreference =
      some (!(effectiveTts (getTtsPreference {}) {})) ∧
    (handleCommand "bot" {} 9 "/tts" {}).1 =
      [.sentMessage 9 (if effectiveTts (getTtsPreference {}) {}
        then "💬 Text Mode Activated" else "🎙️ Speech Mode Activated")] :=
  tts_toggle_spec "bot" {} 9 "/tts" {} (by decide)

end ClaudeBot
